import Mathlib

/-!
Verification of the signal-fusion and trading-cycle logic of
`app/controllers/ai.py` (a GMO-coin trading bot).

The technical-analysis library (talib), the candle store
(`DataFrameCandle`), the `SignalEvents` persistence layer and the
exchange API client are external collaborators of the code under
verification; they enter the embedding as explicit oracle parameters.
Indicator arrays are lists of `Option ℚ`, where `none` plays the role of
an IEEE NaN entry: every ordered comparison against it is false and
arithmetic on it yields `none` again, matching Python float semantics
for the comparisons the source performs.  Python exceptions escaping the
embedded code are modelled with `Except PyErr`.
-/

namespace GmoAi

/-- A Python exception escaping the embedded code. -/
inductive PyErr where
  | IndexError : PyErr
  | ZeroDivisionError : PyErr
  deriving DecidableEq, Repr

/-- Trade side returned by `determine_trade_action` ("BUY" / "SELL"). -/
inductive TradeAction where
  | BUY : TradeAction
  | SELL : TradeAction
  deriving DecidableEq, Repr

/-- One price candle; only the fields `ai.py` reads (time and close). -/
structure Candle where
  time : ℤ
  close : ℚ
  deriving DecidableEq, Repr

/-- The candle window (`DataFrameCandle`) fetched for one evaluation cycle. -/
structure DF where
  candles : List Candle
  deriving DecidableEq, Repr

/-- Derived close series (`df.closes`). -/
def DF.closes (df : DF) : List ℚ := df.candles.map Candle.close

/-- The optimized parameter set (`optimized_trade_params`). -/
structure TradeParams where
  ema_enable : Bool
  ema_period_1 : ℕ
  ema_period_2 : ℕ
  bb_enable : Bool
  bb_n : ℕ
  bb_k : ℚ
  macd_enable : Bool
  macd_fast_period : ℕ
  macd_slow_period : ℕ
  macd_signal_period : ℕ
  deriving DecidableEq, Repr

/-- An entry of a talib output array: `none` models NaN / undefined. -/
abbrev TAVal := Option ℚ

/-- Python `<` on possibly-NaN values: false when either side is NaN. -/
def olt : TAVal → TAVal → Bool
  | some a, some b => decide (a < b)
  | _, _ => false

/-- Python `<=` on possibly-NaN values. -/
def ole : TAVal → TAVal → Bool
  | some a, some b => decide (a ≤ b)
  | _, _ => false

/-- Python `>` on possibly-NaN values. -/
def ogt : TAVal → TAVal → Bool
  | some a, some b => decide (b < a)
  | _, _ => false

/-- Python `>=` on possibly-NaN values. -/
def oge : TAVal → TAVal → Bool
  | some a, some b => decide (b ≤ a)
  | _, _ => false

/-- Python subtraction on possibly-NaN values: NaN propagates. -/
def osub : TAVal → TAVal → TAVal
  | some a, some b => some (a - b)
  | _, _ => none

/-- Python `x > c` for a possibly-NaN `x` and a plain constant `c`. -/
def ogtc : TAVal → ℚ → Bool
  | some a, c => decide (c < a)
  | none, _ => false

/-- Python `a > x` for a plain `a` and possibly-NaN `x`. -/
def qgt (a : ℚ) : TAVal → Bool
  | some b => decide (b < a)
  | none => false

/-- Python `a < x` for a plain `a` and possibly-NaN `x`. -/
def qlt (a : ℚ) : TAVal → Bool
  | some b => decide (a < b)
  | none => false

/-- Python `l[-1]` on an indicator array, defaulting to NaN; the source
only evaluates it where the array is known nonempty. -/
def last1 (l : List TAVal) : TAVal := l.getLast?.getD none

/-- Python `l[-2]` on an indicator array, defaulting to NaN; the source
only evaluates it under a `len(l) >= 2` guard. -/
def last2 (l : List TAVal) : TAVal := (l.get? (l.length - 2)).getD none

/-- The talib surface `ai.py` calls, as an oracle: `EMA(closes, period)`,
`BBANDS(closes, timeperiod, nbdev)` returning (upper, middle, lower) and
`MACD(closes, fast, slow, signalperiod)` returning (macd, macdsignal,
macdhist).  Output arrays may contain NaN (`none`) entries. -/
structure TALib where
  EMA : List ℚ → ℕ → List TAVal
  BBANDS : List ℚ → ℕ → ℚ → List TAVal × List TAVal × List TAVal
  MACD : List ℚ → ℕ → ℕ → ℕ → List TAVal × List TAVal × List TAVal

/-- The EMA buy condition of ai.py line 48:
`ema1[-2] < ema2[-2] and ema1[-1] >= ema2[-1] and ema_diff > 0.05`,
where `ema_diff = ema2[-1] - ema1[-1]` (line 47). -/
def emaBuyFlag (e1 e2 : List TAVal) : Bool :=
  olt (last2 e1) (last2 e2) && oge (last1 e1) (last1 e2) &&
    ogtc (osub (last1 e2) (last1 e1)) (5 / 100)

/-- The EMA sell condition of ai.py line 49. -/
def emaSellFlag (e1 e2 : List TAVal) : Bool :=
  ogt (last2 e1) (last2 e2) && ole (last1 e1) (last1 e2) &&
    ogtc (osub (last1 e2) (last1 e1)) (5 / 100)

/-- EMA block of `determine_trade_action` (ai.py lines 42-53), acting on
the running `(buy_signal, sell_signal, signal_strength)` state. -/
def emaStage (ta : TALib) (p : TradeParams) (closes : List ℚ) :
    Bool × Bool × ℕ → Bool × Bool × ℕ := fun st =>
  if p.ema_enable then
    let e1 := ta.EMA closes p.ema_period_1
    let e2 := ta.EMA closes p.ema_period_2
    if 2 ≤ e1.length ∧ 2 ≤ e2.length then
      (emaBuyFlag e1 e2, emaSellFlag e1 e2,
        st.2.2 + (if emaBuyFlag e1 e2 || emaSellFlag e1 e2 then 1 else 0))
    else st
  else st

/-- Bollinger-band block (ai.py lines 55-67): raises `IndexError` when
the close series (line 58, `df.closes[-1]`) or a band array (lines 59,
62, 66) is empty, exactly where the Python indexing would. -/
def bbStage (ta : TALib) (p : TradeParams) (closes : List ℚ) :
    Bool × Bool × ℕ → Except PyErr (Bool × Bool × ℕ) := fun st =>
  if p.bb_enable then
    match ta.BBANDS closes p.bb_n p.bb_k with
    | (upper, _middle, lower) =>
      match closes.getLast? with
      | none => .error .IndexError
      | some last_close =>
        match upper.getLast?, lower.getLast? with
        | some u, some l =>
          .ok (if qgt last_close u then (st.1, true, st.2.2 + 1)
               else if qlt last_close l then (true, st.2.1, st.2.2 + 1)
               else st)
        | _, _ => .error .IndexError
  else .ok st

/-- MACD block (ai.py lines 69-78).  When it runs it reassigns both
signal flags, discarding whatever the EMA and Bollinger blocks set. -/
def macdStage (ta : TALib) (p : TradeParams) (closes : List ℚ) :
    Bool × Bool × ℕ → Bool × Bool × ℕ := fun st =>
  if p.macd_enable then
    match ta.MACD closes p.macd_fast_period p.macd_slow_period
        p.macd_signal_period with
    | (macd, macdsignal, _hist) =>
      if 2 ≤ macd.length ∧ 2 ≤ macdsignal.length then
        let buy := ogt (last1 macd) (last1 macdsignal) &&
          ole (last2 macd) (last2 macdsignal)
        let sell := olt (last1 macd) (last1 macdsignal) &&
          oge (last2 macd) (last2 macdsignal)
        (buy, sell, st.2.2 + (if buy || sell then 1 else 0))
      else st
  else st

/-- The three indicator blocks of `determine_trade_action` in source
order, from cleared flags and zero strength. -/
def signalPipeline (ta : TALib) (df : DF) (p : TradeParams) :
    Except PyErr (Bool × Bool × ℕ) :=
  match bbStage ta p df.closes (emaStage ta p df.closes (false, false, 0)) with
  | .error e => .error e
  | .ok st => .ok (macdStage ta p df.closes st)

/-- Final gate of `determine_trade_action` (ai.py lines 80-89): a
directional result needs `signal_strength >= 2`; with strength but no
flag the function falls off the end, returning `None`. -/
def fuseDecision : Bool × Bool × ℕ → Option TradeAction
  | (buy, sell, k) =>
    if 2 ≤ k then
      if buy then some .BUY else if sell then some .SELL else none
    else none

/-- `determine_trade_action` (ai.py lines 33-89). -/
def determine_trade_action (ta : TALib) (df : DF) :
    Option TradeParams → Except PyErr (Option TradeAction)
  | none => .ok none
  | some p =>
    match signalPipeline ta df p with
    | .error e => .error e
    | .ok st => .ok (fuseDecision st)

/-- Modelled from the spec: the duration constants live in the external
`constants` module; the spec recognizes exactly three durations (1
minute, 5 minutes, 1 hour), and only their identity as three distinct
strings matters to the code under verification. -/
def DURATION_1M : String := "1m"

/-- Modelled from the spec: the 5-minute duration constant. -/
def DURATION_5M : String := "5m"

/-- Modelled from the spec: the 1-hour duration constant. -/
def DURATION_1H : String := "1h"

/-- `duration_seconds` (ai.py lines 22-30). -/
def duration_seconds (duration : String) : ℕ :=
  if duration = DURATION_1M then 60
  else if duration = DURATION_5M then 60 * 5
  else if duration = DURATION_1H then 60 * 60
  else 0

/-- The optimizer environment seen by successive recursive calls of
`update_optimize_params`: call number `k` fetches candle window
`(env k).1` and, when that window is nonempty, `df.optimize_params()`
returns `(env k).2`. -/
abbrev OptEnv := ℕ → List Candle × Option TradeParams

/-- The non-recursive core of `update_optimize_params` (ai.py lines
120-123): the stored parameter set is reassigned only when the fetched
candle list is nonempty (`if df.candles:`). -/
def updateOptimizeParamsOnce (candles : List Candle)
    (optResult : Option TradeParams) (prev : Option TradeParams) :
    Option TradeParams :=
  if candles = [] then prev else optResult

/-- `update_optimize_params` (ai.py lines 118-131), with explicit fuel in
place of the unbounded Python recursion.  Returns the final stored
parameter set, the list of `time.sleep` durations performed (seconds),
and whether the recursion terminated within the fuel.  The sleep-retry
branch runs only when `is_continue` is true and the parameter set is
still absent (ai.py lines 129-131). -/
def update_optimize_params (env : OptEnv) (duration : String) :
    ℕ → ℕ → Option TradeParams → Bool →
      Option TradeParams × List ℕ × Bool
  | fuel, k, prev, is_continue =>
    match is_continue, updateOptimizeParamsOnce (env k).1 (env k).2 prev with
    | true, none =>
      match fuel with
      | 0 => (none, [], false)
      | f + 1 =>
        let rest := update_optimize_params env duration f (k + 1) none true
        (rest.1, 10 * duration_seconds duration :: rest.2.1, rest.2.2)
    | true, some q => (some q, [], true)
    | false, p => (p, [], true)

/-- One call into the external `SignalEvents` sink (`signal_events.buy`
or `signal_events.sell`): the trade record the engine emits.  `save`
mirrors the `save=` keyword of the call (false in backtest). -/
structure TradeRecord where
  product_code : String
  time : ℤ
  price : ℚ
  units : ℚ
  side : TradeAction
  save : Bool
  deriving DecidableEq, Repr

/-- The fields of the `AI` instance that the embedded methods read
(ai.py lines 103-116).  `stop_limit` is initialized to 0 in
`__init__` (line 110). -/
structure AIState where
  product_code : String
  use_percent : ℚ
  duration : String
  past_period : ℕ
  optimized_trade_params : Option TradeParams
  stop_limit : ℚ
  stop_limit_percent : ℚ
  back_test : Bool
  start_trade : ℤ
  deriving DecidableEq, Repr

/-- Python `int()` truncation toward zero on a rational. -/
def pyInt (q : ℚ) : ℤ := Int.tdiv q.num q.den

/-- Oracle inputs for one live `AI.buy` call: the `get_balance` result
(`none` for a falsy response), the HTTP status the `/v1/order` POST was
answered with, and the boolean the external SignalEvents layer returns
from `signal_events.buy`. -/
structure BuyEnv where
  available : Option ℚ
  orderStatus : ℕ
  sevResult : Bool
  deriving DecidableEq, Repr

/-- `AI.buy` (ai.py lines 144-174): returns the SignalEvents calls made
(the emitted trade records) and the method's return value.  The HTTP
response of the order POST is parsed and logged by the source but never
examined: `signal_events.buy(..., save=True)` runs unconditionally
after it (lines 169-174). -/
def AI.buy (s : AIState) (env : BuyEnv) (candle : Candle) :
    List TradeRecord × Bool :=
  if s.back_test then
    ([⟨s.product_code, candle.time, candle.close, 1, .BUY, false⟩],
      env.sevResult)
  else if s.start_trade > candle.time then ([], false)
  else
    match env.available with
    | none => ([], false)
    | some available =>
      let units := pyInt (available * s.use_percent)
      ([⟨s.product_code, candle.time, candle.close, (units : ℚ), .BUY, true⟩],
        env.sevResult)

/-- One fill returned by `API.trade_close` for a given trade id. -/
structure ClosedTrade where
  price : ℚ
  units : ℚ
  deriving DecidableEq, Repr

/-- Oracle inputs for one live `AI.sell` call: the trade-id list
`get_open_trade` returns (empty for a falsy response), the fill each
`trade_close` call returns, and the SignalEvents boolean. -/
structure SellEnv where
  openTrades : List ℕ
  closeResult : ℕ → ClosedTrade
  sevResult : Bool

/-- `AI.sell` (ai.py lines 176-198): closes every open lot and reports
the volume-weighted average exit price `sum_price / units`; a zero lot
total raises `ZeroDivisionError` exactly where the source divides (line
197).  The body contains no call to `update_optimize_params`. -/
def AI.sell (s : AIState) (env : SellEnv) (candle : Candle) :
    Except PyErr (List TradeRecord × Bool) :=
  if s.back_test then
    .ok ([⟨s.product_code, candle.time, candle.close, 1, .SELL, false⟩],
      env.sevResult)
  else if s.start_trade > candle.time then .ok ([], false)
  else if env.openTrades = [] then .ok ([], false)
  else
    let closed := env.openTrades.map env.closeResult
    let sum_price := (closed.map fun t => t.price * |t.units|).sum
    let units := (closed.map fun t => |t.units|).sum
    if units = 0 then .error .ZeroDivisionError
    else
      .ok ([⟨s.product_code, candle.time, sum_price / units, units,
        .SELL, true⟩], env.sevResult)

/-- Oracle inputs for one `AI.trade` cycle: the talib oracle, the candle
window fetched for signal determination, the candle window and optimizer
result seen by an in-cycle `update_optimize_params` call, and the
buy/sell oracles. -/
structure TradeEnv where
  ta : TALib
  df : DF
  optCandles : List Candle
  optResult : Option TradeParams
  buyEnv : BuyEnv
  sellEnv : SellEnv

/-- Body of `AI.trade` after the parameter guard (ai.py lines 208-213):
determine the action and, if any, execute it against the last candle
(`df.candles[-1]`, raising `IndexError` when the window is empty).
`reopt` counts the `update_optimize_params` invocations the cycle has
made so far; neither `buy` nor `sell` adds one. -/
def AI.tradeBody (s : AIState) (env : TradeEnv) (reopt : ℕ) :
    Except PyErr (AIState × List TradeRecord × ℕ) :=
  match determine_trade_action env.ta env.df s.optimized_trade_params with
  | .error e => .error e
  | .ok none => .ok (s, [], reopt)
  | .ok (some a) =>
    match env.df.candles.getLast? with
    | none => .error .IndexError
    | some candle =>
      match a with
      | .BUY => .ok (s, (AI.buy s env.buyEnv candle).1, reopt)
      | .SELL =>
        match AI.sell s env.sellEnv candle with
        | .error e => .error e
        | .ok r => .ok (s, r.1, reopt)

/-- `AI.trade` (ai.py lines 200-213): one evaluation cycle.  Returns the
state after the cycle, the trade records emitted, and the number of
`update_optimize_params` invocations performed.  When the stored
parameter set is absent the cycle calls `update_optimize_params(False)`
once and returns without trading if it is still absent (lines 202-206).
The method contains no stop-loss logic: `self.stop_limit` is never read
or written anywhere outside `__init__`. -/
def AI.trade (s : AIState) (env : TradeEnv) :
    Except PyErr (AIState × List TradeRecord × ℕ) :=
  if s.optimized_trade_params = none then
    let p := updateOptimizeParamsOnce env.optCandles env.optResult none
    let s1 := { s with optimized_trade_params := p }
    if p = none then .ok (s1, [], 1)
    else AI.tradeBody s1 env 1
  else AI.tradeBody s env 0

/-- A talib oracle whose every output entry is NaN; sufficient wherever
all indicators are disabled or undefined regions are wanted. -/
def trivialTALib : TALib where
  EMA := fun closes _ => closes.map fun _ => none
  BBANDS := fun closes _ _ =>
    (closes.map (fun _ => none), closes.map (fun _ => none),
      closes.map fun _ => none)
  MACD := fun closes _ _ _ =>
    (closes.map (fun _ => none), closes.map (fun _ => none),
      closes.map fun _ => none)

/-- A parameter set with every indicator disabled. -/
def disabledParams : TradeParams :=
  ⟨false, 3, 8, false, 20, 2, false, 12, 26, 9⟩

/-- A parameter set enabling Bollinger bands and MACD only. -/
def bbMacdParams : TradeParams :=
  ⟨false, 3, 8, true, 20, 2, true, 12, 26, 9⟩

/-- A parameter set enabling Bollinger bands only. -/
def bbOnlyParams : TradeParams :=
  ⟨false, 3, 8, true, 20, 2, false, 12, 26, 9⟩

/-- A two-bar candle window closing at 100. -/
def twoBarDF : DF := ⟨[⟨1, 100⟩, ⟨2, 100⟩]⟩

/-- Baseline engine state shared by the concrete scenarios. -/
def baseState : AIState :=
  { product_code := "BTC_JPY", use_percent := 1, duration := DURATION_1M,
    past_period := 30, optimized_trade_params := some disabledParams,
    stop_limit := 0, stop_limit_percent := 95 / 100, back_test := true,
    start_trade := 0 }

/-- Scenario state for the stop-loss claim: a long was entered at 100
with multiplier 0.95, so the spec-level stop price is 95 (stored here in
the otherwise-unused `stop_limit` field). -/
def c1State : AIState := { baseState with stop_limit := 95 }

/-- Scenario cycle for the stop-loss claim: the current window closes at
98 then 94 (≤ 95) and no indicator is enabled, so the fuser yields no
sell signal. -/
def c1Env : TradeEnv :=
  { ta := trivialTALib, df := ⟨[⟨1, 98⟩, ⟨2, 94⟩]⟩, optCandles := [],
    optResult := none, buyEnv := ⟨some 1000, 200, true⟩,
    sellEnv := ⟨[], fun _ => ⟨0, 0⟩, true⟩ }

/-- Live-mode state for the order-rejection claim. -/
def c2State : AIState := { baseState with back_test := false }

/-- Buy oracle for the order-rejection claim: balance available, but the
order POST is answered with HTTP 500. -/
def c2Env : BuyEnv := ⟨some 1000, 500, true⟩

/-- Talib oracle where the Bollinger buy condition and the MACD upward
cross both fire on a window closing at 100. -/
def c4TALib : TALib where
  EMA := fun _ _ => []
  BBANDS := fun _ _ _ =>
    ([some 200, some 200], [some 175, some 175], [some 150, some 150])
  MACD := fun _ _ _ _ => ([some 0, some 1], [some 0, some 0], [])

/-- Talib oracle where only the Bollinger buy condition fires; the MACD
lines have two bars but no cross. -/
def c4bTALib : TALib where
  EMA := fun _ _ => []
  BBANDS := fun _ _ _ =>
    ([some 200, some 200], [some 175, some 175], [some 150, some 150])
  MACD := fun _ _ _ _ => ([some 1, some 1], [some 0, some 0], [])

/-- Talib oracle where the Bollinger buy condition fires while the MACD
downward cross fires: a buy condition and a sell condition on the same
evaluation. -/
def c5TALib : TALib where
  EMA := fun _ _ => []
  BBANDS := fun _ _ _ =>
    ([some 200, some 200], [some 175, some 175], [some 150, some 150])
  MACD := fun _ _ _ _ => ([some 0, some (-1)], [some 0, some 0], [])

/-- Optimizer environment that always fetches one candle and always
fails to produce parameters. -/
def c6Env : OptEnv := fun _ => ([⟨0, 100⟩], none)

/-- Optimizer environment that fails on the first call and succeeds on
every later one. -/
def c6wEnv : OptEnv :=
  fun k => ([⟨0, 100⟩], if k = 0 then none else some disabledParams)

/-- Talib oracle where the Bollinger sell condition (close above the
upper band) and the MACD downward cross both fire. -/
def c7TALib : TALib where
  EMA := fun _ _ => []
  BBANDS := fun _ _ _ =>
    ([some 100, some 100], [some 50, some 50], [some 10, some 10])
  MACD := fun _ _ _ _ => ([some 0, some (-1)], [some 0, some 0], [])

/-- Engine state holding the bb+macd parameter set. -/
def c7State : AIState :=
  { baseState with optimized_trade_params := some bbMacdParams }

/-- Cycle whose fused decision is SELL: closes 200 then 300, with the
sell executed in backtest mode. -/
def c7Env : TradeEnv :=
  { ta := c7TALib, df := ⟨[⟨1, 200⟩, ⟨2, 300⟩]⟩, optCandles := [],
    optResult := none, buyEnv := ⟨some 1000, 200, true⟩,
    sellEnv := ⟨[], fun _ => ⟨0, 0⟩, true⟩ }

/-- Sell oracle returning a single open lot that closes with zero
units. -/
def c9SellEnv : SellEnv := ⟨[7], fun _ => ⟨100, 0⟩, true⟩

/-! ## Helper lemmas -/

/-- Core arithmetic impossibility behind the EMA buy condition: a value
cannot be at least another while also trailing it by more than 0.05. -/
theorem emaBuyCore_false (w : Bool) (x y : TAVal) :
    (w && oge x y && ogtc (osub y x) (5 / 100)) = false := by
  cases x with
  | none => simp [oge]
  | some a =>
    cases y with
    | none => simp [oge]
    | some b =>
      by_cases h : b ≤ a
      · have h2 : ¬ ((5 : ℚ) / 100 < b - a) := by linarith
        simp [ogtc, osub, h2]
      · simp [oge, h]

/-- The EMA buy condition is identically false: its second conjunct puts
the first EMA at or above the second while its third demands the second
exceed the first by more than 0.05. -/
theorem emaBuyFlag_false (e1 e2 : List TAVal) : emaBuyFlag e1 e2 = false :=
  emaBuyCore_false (olt (last2 e1) (last2 e2)) (last1 e1) (last1 e2)

/-- A directional fused decision forces strength at least 2. -/
theorem fuseDecision_strength (buy sell : Bool) (k : ℕ) (a : TradeAction)
    (h : fuseDecision (buy, sell, k) = some a) : 2 ≤ k := by
  by_cases hk : 2 ≤ k
  · exact hk
  · unfold fuseDecision at h
    simp [hk] at h

/-- Strength below 2 forces a `None` fused decision. -/
theorem fuseDecision_below_threshold (buy sell : Bool) (k : ℕ)
    (hk : k < 2) : fuseDecision (buy, sell, k) = none := by
  unfold fuseDecision
  simp [Nat.not_le.mpr hk]

/-! ## Claim theorems -/

/-- C1: ai.py evaluates no stop-loss on the trading cycle.  With a long
entered at 100, spec-level stop price 95 stored in `stop_limit`, and the
current bar closing at 94 (≤ 95) while the fuser yields no signal, the
cycle emits no exit order, performs no re-optimization, and leaves the
state (including `stop_limit`) unchanged — the claim requires a forced
Long→Flat exit at this bar. -/
theorem trade_no_stop_loss_exit :
    AI.trade c1State c1Env = .ok (c1State, [], 0) := by rfl

/-- C2: in live mode, with a fresh candle and an available balance but
the order POST answered by HTTP 500 (`c2Env.orderStatus = 500`), `buy`
still emits a trade record with `save = true`: the order response is
never consulted before `signal_events.buy(..., save=True)` runs. -/
theorem buy_records_despite_rejected_order :
    c2Env.orderStatus = 500 ∧
      AI.buy c2State c2Env ⟨5, 100⟩ =
        ([⟨"BTC_JPY", 5, 100, 1000, .BUY, true⟩], true) := by
  refine ⟨rfl, ?_⟩
  show ([TradeRecord.mk "BTC_JPY" 5 100 ((pyInt ((1000 : ℚ) * 1) : ℤ) : ℚ)
      TradeAction.BUY true], true) =
    ([TradeRecord.mk "BTC_JPY" 5 100 1000 TradeAction.BUY true], true)
  have hm : (1000 : ℚ) * 1 = 1000 := by norm_num
  rw [hm]
  decide

/-- C3: the EMA buy branch of ai.py line 48 is unsatisfiable — it
demands `ema1[-1] >= ema2[-1]` together with
`ema2[-1] - ema1[-1] > 0.05` — so, starting from cleared flags, the EMA
stage never sets the buy flag: an upward EMA cross can never produce a
buy signal, for any talib output and any parameters. -/
theorem ema_buy_signal_unsatisfiable (ta : TALib) (p : TradeParams)
    (closes : List ℚ) :
    (emaStage ta p closes (false, false, 0)).1 = false := by
  simp only [emaStage]
  split
  · split
    · simp [emaBuyFlag_false]
    · rfl
  · rfl

/-- C4: the confidence gate is real: `determine_trade_action` returns a
directional action only when the corroboration counter of the signal
pipeline reaches 2, and whenever the counter stays below 2 (e.g. two
indicators enabled but only one firing) it returns no action. -/
theorem fuser_requires_two_corroborating_signals :
    (∀ (ta : TALib) (df : DF) (p : TradeParams) (a : TradeAction),
        determine_trade_action ta df (some p) = .ok (some a) →
          ∃ buy sell k, signalPipeline ta df p = .ok (buy, sell, k) ∧
            2 ≤ k) ∧
      (∀ (ta : TALib) (df : DF) (p : TradeParams) (buy sell : Bool)
          (k : ℕ), signalPipeline ta df p = .ok (buy, sell, k) → k < 2 →
          determine_trade_action ta df (some p) = .ok none) := by
  constructor
  · intro ta df p a h
    simp only [determine_trade_action] at h
    cases hp : signalPipeline ta df p with
    | error e =>
      rw [hp] at h
      exact Except.noConfusion h
    | ok st =>
      obtain ⟨buy, sell, k⟩ := st
      rw [hp] at h
      exact ⟨buy, sell, k, rfl,
        fuseDecision_strength buy sell k a (Except.ok.inj h)⟩
  · intro ta df p buy sell k hp hk
    simp only [determine_trade_action]
    rw [hp]
    exact congrArg Except.ok (fuseDecision_below_threshold buy sell k hk)

/-- C4 witness: with Bollinger and MACD enabled, a cycle where both fire
reaches counter 2 (and trades), while a cycle where only Bollinger fires
keeps the counter at 1 and yields no action. -/
theorem fuser_requires_two_corroborating_signals_w :
    (∃ buy sell k,
        signalPipeline c4TALib twoBarDF bbMacdParams = .ok (buy, sell, k) ∧
          2 ≤ k) ∧
      determine_trade_action c4bTALib twoBarDF (some bbMacdParams) =
        .ok none :=
  ⟨fuser_requires_two_corroborating_signals.1 c4TALib twoBarDF bbMacdParams
      .BUY (by rfl),
    fuser_requires_two_corroborating_signals.2 c4bTALib twoBarDF bbMacdParams
      false false 1 (by rfl) (by decide)⟩

/-- C5 counterexample: on this evaluation the Bollinger buy condition
fires (the band stage sets the buy flag: close 100 is below the lower
band 150) and the MACD sell condition fires, the threshold is met
(counter 2), yet the fuser returns SELL, not BUY: the MACD block
reassigned both flags and erased the earlier buy. -/
theorem buy_precedence_cex :
    bbStage c5TALib bbMacdParams twoBarDF.closes (false, false, 0) =
        .ok (true, false, 1) ∧
      signalPipeline c5TALib twoBarDF bbMacdParams = .ok (false, true, 2) ∧
      determine_trade_action c5TALib twoBarDF (some bbMacdParams) =
        .ok (some .SELL) := ⟨rfl, rfl, rfl⟩

/-- C5 amended: buy precedence holds for the flags that survive to
fusion: whenever the signal pipeline ends with the buy flag set and the
threshold met, the fused decision is BUY regardless of the sell flag. -/
theorem fused_buy_precedence (ta : TALib) (df : DF) (p : TradeParams)
    (sell : Bool) (k : ℕ)
    (h : signalPipeline ta df p = .ok (true, sell, k)) (hk : 2 ≤ k) :
    determine_trade_action ta df (some p) = .ok (some .BUY) := by
  simp only [determine_trade_action]
  rw [h]
  have hf : fuseDecision (true, sell, k) = some .BUY := by
    unfold fuseDecision
    simp [hk]
  exact congrArg Except.ok hf

/-- C5 amended witness: a pipeline ending with the buy flag set and
counter 2 (Bollinger buy plus MACD upward cross) fuses to BUY. -/
theorem fused_buy_precedence_w :
    determine_trade_action c4TALib twoBarDF (some bbMacdParams) =
      .ok (some .BUY) :=
  fused_buy_precedence c4TALib twoBarDF bbMacdParams false 2 (by rfl)
    (by decide)

/-- C6 counterexample: the engine-start invocation is
`update_optimize_params(False)` (ai.py line 116); with candles present
but the optimizer yielding `None` it returns immediately — no sleep, no
retry, parameter set still absent — contradicting the claimed
sleep-ten-durations-and-retry behaviour at engine start. -/
theorem startup_reoptimize_no_backoff :
    update_optimize_params c6Env DURATION_1M 1000 0 none false =
      (none, [], true) := by rfl

/-- C6 amended: only the `is_continue = True` path backs off and
retries: whenever such a call terminates within its fuel, the returned
parameter set is present and every sleep performed lasted ten candle
durations. -/
theorem reoptimize_backoff_until_params (env : OptEnv) (d : String) :
    ∀ (fuel k : ℕ) (prev : Option TradeParams),
      (update_optimize_params env d fuel k prev true).2.2 = true →
        (update_optimize_params env d fuel k prev true).1 ≠ none ∧
          ∀ t ∈ (update_optimize_params env d fuel k prev true).2.1,
            t = 10 * duration_seconds d := by
  intro fuel
  induction fuel with
  | zero =>
    intro k prev h
    cases hp : updateOptimizeParamsOnce (env k).1 (env k).2 prev with
    | none =>
      rw [update_optimize_params.eq_1 env d k prev hp] at h
      exact absurd h (by simp)
    | some q =>
      rw [update_optimize_params.eq_3 env d 0 k prev q hp]
      exact ⟨by simp, by simp⟩
  | succ f ih =>
    intro k prev h
    cases hp : updateOptimizeParamsOnce (env k).1 (env k).2 prev with
    | none =>
      rw [update_optimize_params.eq_2 env d k prev f hp] at h ⊢
      dsimp only at h ⊢
      have hrec := ih (k + 1) none h
      refine ⟨hrec.1, ?_⟩
      intro t ht
      rcases List.mem_cons.mp ht with h3 | h3
      · exact h3
      · exact hrec.2 t h3
    | some q =>
      rw [update_optimize_params.eq_3 env d (f + 1) k prev q hp]
      exact ⟨by simp, by simp⟩

/-- C6 amended witness: a continuing retry whose optimizer fails once
then succeeds terminates with parameters present, having slept exactly
600 seconds (ten one-minute durations) in between. -/
theorem reoptimize_backoff_until_params_w :
    (update_optimize_params c6wEnv DURATION_1M 5 0 none true).1 ≠ none ∧
      ∀ t ∈ (update_optimize_params c6wEnv DURATION_1M 5 0 none true).2.1,
        t = 10 * duration_seconds DURATION_1M :=
  reoptimize_backoff_until_params c6wEnv DURATION_1M 5 0 none (by rfl)

/-- C7: a full cycle that closes the position — the fused decision is
SELL and the sell executes, emitting the exit record — performs zero
`update_optimize_params` invocations: ai.py's `sell` never triggers
re-optimization after a close. -/
theorem sell_does_not_reoptimize :
    AI.trade c7State c7Env =
      .ok (c7State, [⟨"BTC_JPY", 2, 300, 1, .SELL, false⟩], 0) := by rfl

/-- C8: with the Bollinger indicator enabled and an empty candle series,
`determine_trade_action` raises IndexError (at `df.closes[-1]`, ai.py
line 58) instead of completing with no signal. -/
theorem empty_series_bbands_index_error :
    determine_trade_action trivialTALib ⟨[]⟩ (some bbOnlyParams) =
      .error .IndexError := by rfl

/-- C9: a live sell whose open-trade query returns one lot closing with
zero units raises ZeroDivisionError at `sum_price / units` (ai.py line
197) instead of failing as a rejected order. -/
theorem sell_zero_units_division_error :
    AI.sell c2State c9SellEnv ⟨5, 100⟩ = .error .ZeroDivisionError := by
  simp [AI.sell, c2State, c9SellEnv, baseState]

/-- C10: when the candle history fetched for optimization is empty, the
parameter-update core keeps the stored set unchanged, and any change to
the stored set requires a nonempty history. -/
theorem empty_history_keeps_params :
    (∀ (o p : Option TradeParams), updateOptimizeParamsOnce [] o p = p) ∧
      (∀ (c : List Candle) (o p : Option TradeParams),
        updateOptimizeParamsOnce c o p ≠ p → c ≠ []) := by
  constructor
  · intro o p; rfl
  · intro c o p h hc
    subst hc
    exact h rfl

/-- C10 witness: a change of the stored set — here from `none` to a
concrete parameter set — implies the fetched history was nonempty. -/
theorem empty_history_keeps_params_w :
    ([⟨0, 100⟩] : List Candle) ≠ [] :=
  empty_history_keeps_params.2 [⟨0, 100⟩] (some disabledParams) none
    (by decide)

end GmoAi
